import Mathlib

/-!
Shallow embedding of the `lit-data-grid` layout/state engine, translated
from `src/data-grid.ts` (the `DataGrid` element: column-width model and
reorder coordinator wiring) and `src/data-grid-column.ts` (the
`DataGridColumn` element: resize math and grid-width reads).

Modelling conventions: JavaScript numbers are modelled over `ℚ`
(`NaN`/`Infinity` arise only through division by zero, which is treated
explicitly); JavaScript `undefined` is `Option.none`; JavaScript
truthiness tests on optional numbers are modelled by `truthyNum`; a
JavaScript array is a `List`, and since a JavaScript array can hold
`undefined`, the backing sequences mutated by the reorder handlers are
lists of `Option` values.
-/

namespace LitDataGrid

/-- A grid column, restricted to the fields the layout engine reads
(`minWidth` and `maxWidth`, both optional pixel values). -/
structure Column where
  minWidth : Option ℚ := none
  maxWidth : Option ℚ := none
deriving DecidableEq

/-- JavaScript truthiness of an optional number: `undefined` and `0` are
falsy, every other number is truthy (`NaN` is outside the model). -/
def truthyNum : Option ℚ → Bool
  | some x => x != 0
  | none => false

/-- Modelled from the spec: `pixelsToPercentOfWidth` lives in
`src/utils/shared.ts`, which is not among the provided sources; spec §4.1
defines it as `(px / gridWidthPx) * 100`, required to produce `0` when
`gridWidthPx == 0` instead of `NaN`/`Infinity`. -/
def pixelsToPercentOfWidth (px gridWidth : ℚ) : ℚ :=
  if gridWidth = 0 then 0 else px / gridWidth * 100

/-- The `DataGrid` element state the layout engine touches: `columns`,
`rows`, the width array `gridTemplateColumns` (percent per column), the
rendered width `getBoundingClientRect().width`, the `reorderable` flag and
the two `Sortable` coordinators, each modelled by whether it is live
(created and not destroyed). Field defaults mirror the class property
initializers. -/
structure DataGridState (ρ : Type) where
  columns : List (Option Column) := []
  rows : List (Option ρ) := []
  gridTemplateColumns : List ℚ := []
  rectWidth : ℚ := 0
  reorderable : Bool := true
  sortableColumns : Bool := false
  sortableRows : Bool := false
deriving DecidableEq

/-- One slot of `DataGrid.initializeCellWidths` (src/data-grid.ts:103-109):
`existingWidth ? existingWidth : c?.minWidth ?
pixelsToPercentOfWidth(c?.minWidth, rect.width) : 100 / columns.length - 1`,
where `existingWidth` is read from the old width array only when that
array's length exceeds 1. -/
def initWidth (st : DataGridState ρ) (index : ℕ) (c : Option Column) : ℚ :=
  let existingWidth : Option ℚ :=
    if st.gridTemplateColumns.length > 1 then st.gridTemplateColumns[index]? else none
  if truthyNum existingWidth then existingWidth.getD 0
  else if truthyNum (c.bind Column.minWidth) then
    pixelsToPercentOfWidth ((c.bind Column.minWidth).getD 0) st.rectWidth
  else 100 / (st.columns.length : ℚ) - 1

/-- `DataGrid.initializeCellWidths` (src/data-grid.ts:103-109): maps every
column, with its index, to a width slot; the right-hand side reads the old
`gridTemplateColumns`, and the result replaces it wholesale. -/
def initializeCellWidths (st : DataGridState ρ) : DataGridState ρ :=
  { st with gridTemplateColumns := st.columns.mapIdx fun i c => initWidth st i c }

/-- `DataGrid.handleColumnsChange` (src/data-grid.ts:95-98), the watcher on
`columns`: recompute widths exactly when the width count differs from the
column count. -/
def handleColumnsChange (st : DataGridState ρ) : DataGridState ρ :=
  if st.gridTemplateColumns.length ≠ st.columns.length then initializeCellWidths st else st

/-- The `this.minWidth || 60` fallback in `onResizePointerDown`
(src/data-grid-column.ts:144): JavaScript `||` on a number returns the
right operand when the left operand is falsy (`undefined` or `0`). -/
def jsOrDefault (o : Option ℚ) (d : ℚ) : ℚ :=
  if truthyNum o then o.getD 0 else d

/-- Pointer-move body of `DataGridColumn.onResizePointerDown`
(src/data-grid-column.ts:138-155): the new width percent written to
`this.width` during a resize drag, with `deltaX = evt.clientX - startX`. -/
def resizeNewWidth (minWidth : Option ℚ) (startWidth deltaX gridWidth : ℚ) : ℚ :=
  pixelsToPercentOfWidth (max (jsOrDefault minWidth 60) (startWidth + deltaX)) gridWidth

/-- `DataGridColumn.handleWidthChange` (src/data-grid-column.ts:114-122):
copies `grid.gridTemplateColumns` and overwrites the slot at the column's
index with the column's new width. -/
def handleWidthChange (st : DataGridState ρ) (index : ℕ) (width : ℚ) : DataGridState ρ :=
  { st with gridTemplateColumns := st.gridTemplateColumns.set index width }

/-- `DataGridColumn.gridWidth` (src/data-grid-column.ts:86-93): reads the
enclosing grid's rendered width. Without an enclosing grid it logs a
warning and returns 0. The result pairs the returned width with the
console diagnostics emitted by the read; the function is total, so no
exception can escape it. -/
def gridWidthRead (grid : Option ℚ) : ℚ × List String :=
  match grid with
  | some w => (w, [])
  | none => (0, ["DataGridColumn must be a child of DataGrid"])

/-- JavaScript `array.splice(start, 1)`: returns the array after removal
and the list of removed elements; `start` is clamped to the length, and
past the end nothing is removed. -/
def jsSpliceDeleteOne (l : List α) (start : ℕ) : List α × List α :=
  (l.take (min start l.length) ++ l.drop (min start l.length + 1),
   (l.drop (min start l.length)).take 1)

/-- JavaScript `array.splice(start, 0, a)`: inserts `a` at `start` clamped
to the length. -/
def jsSpliceInsertOne (l : List α) (start : ℕ) (a : α) : List α :=
  l.take (min start l.length) ++ a :: l.drop (min start l.length)

/-- The `onEnd` commit of a reorder drop (src/data-grid.ts:137-144 for
columns, 160-165 for rows): `seq.splice(to, 0, seq.splice(from, 1)[0])`.
Reading `[0]` from an empty removal list yields JavaScript `undefined`,
i.e. `none`. -/
def reorderOnEnd (l : List (Option α)) (fromIdx toIdx : ℕ) : List (Option α) :=
  let d := jsSpliceDeleteOne l fromIdx
  jsSpliceInsertOne d.1 toIdx (d.2.headD none)

/-- The columns `onEnd` handler applied to the grid state
(src/data-grid.ts:137-144); it touches only `columns`. -/
def columnsOnEnd (st : DataGridState ρ) (fromIdx toIdx : ℕ) : DataGridState ρ :=
  { st with columns := reorderOnEnd st.columns fromIdx toIdx }

/-- The rows `onEnd` handler applied to the grid state
(src/data-grid.ts:160-165); it touches only `rows`. -/
def rowsOnEnd (st : DataGridState ρ) (fromIdx toIdx : ℕ) : DataGridState ρ :=
  { st with rows := reorderOnEnd st.rows fromIdx toIdx }

/-- `DataGrid.handleSortableColumnChange` (src/data-grid.ts:116-168), the
watcher on `reorderable`: when the flag is false it destroys both
`Sortable` coordinators, otherwise it (re)creates both. -/
def handleSortableColumnChange (st : DataGridState ρ) : DataGridState ρ :=
  if !st.reorderable then { st with sortableColumns := false, sortableRows := false }
  else { st with sortableColumns := true, sortableRows := true }

/-- Assigning the `reorderable` property: the watcher runs on the change. -/
def setReorderable (st : DataGridState ρ) (b : Bool) : DataGridState ρ :=
  handleSortableColumnChange { st with reorderable := b }

/-- External events reaching the grid: a write to `reorderable`, or a drag
drop reported by the gesture layer on one of the two axes. -/
inductive GridEvent where
  | setFlag (b : Bool)
  | dropColumns (fromIdx toIdx : ℕ)
  | dropRows (fromIdx toIdx : ℕ)
deriving DecidableEq

/-- One event step. A drop reaches the backing sequence only through a live
`Sortable` coordinator: `Sortable.destroy` removes the listeners it holds
(the gesture layer is the spec's §6 external collaborator), so a drop while
the coordinator is destroyed is a no-op on the grid. -/
def step (st : DataGridState ρ) : GridEvent → DataGridState ρ
  | .setFlag b => setReorderable st b
  | .dropColumns f t => if st.sortableColumns then columnsOnEnd st f t else st
  | .dropRows f t => if st.sortableRows then rowsOnEnd st f t else st

/-- Run a sequence of events. -/
def run (st : DataGridState ρ) (evs : List GridEvent) : DataGridState ρ :=
  evs.foldl step st

/-- The width-initialization rule exactly as the specification words it:
reuse the prior width at `index` whenever one exists, else convert a set
`minWidth`, else the equal default share. Written only for comparison with
`initWidth`, which is translated from the source. -/
def claimedInitWidth (st : DataGridState ρ) (index : ℕ) (c : Option Column) : ℚ :=
  match st.gridTemplateColumns[index]? with
  | some w => w
  | none =>
    match c.bind Column.minWidth with
    | some mw => pixelsToPercentOfWidth mw st.rectWidth
    | none => 100 / (st.columns.length : ℚ) - 1

/-- Width recomputation as the specification words it (per-slot rule
`claimedInitWidth`). -/
def claimedInitializeCellWidths (st : DataGridState ρ) : DataGridState ρ :=
  { st with gridTemplateColumns := st.columns.mapIdx fun i c => claimedInitWidth st i c }

/-- The resize formula exactly as the specification words it:
`max(minWidth ?? 60, startWidthPx + pointerDeltaPx)` converted to percent,
where `??` (nullish coalescing) keeps an explicit `0`. Written only for
comparison with `resizeNewWidth`, which is translated from the source. -/
def claimedResizeNewWidth (minWidth : Option ℚ) (startWidth deltaX gridWidth : ℚ) : ℚ :=
  pixelsToPercentOfWidth (max (minWidth.getD 60) (startWidth + deltaX)) gridWidth

/-- Concrete state for the C1 counterexample: a one-column grid (one stored
width, 50%) whose column set grows to two columns without `minWidth`. -/
def c1State : DataGridState Unit :=
  { columns := [some {}, some {}], gridTemplateColumns := [50], rectWidth := 1000 }

/-- Concrete three-column grid with no `minWidth` and no prior widths
(spec Scenario A). -/
def scenarioAState : DataGridState Unit :=
  { columns := [some {}, some {}, some {}], rectWidth := 900 }

/-- Concrete grid used by resize and reorder witnesses. -/
def exState : DataGridState ℕ :=
  { columns := [some {}, some { minWidth := some 200 }]
    rows := [some 7, some 8]
    gridTemplateColumns := [10, 20]
    rectWidth := 1000
    reorderable := true
    sortableColumns := true
    sortableRows := true }

/-- Concrete grid with a column whose `minWidth` is explicitly `0`
(C10 witness). -/
def zeroMinState : DataGridState Unit :=
  { columns := [some { minWidth := some 0 }, some {}], rectWidth := 500 }

/-- Event trace used by the C5 witness: two drops and a redundant disable,
never a re-enable. -/
def exEvents : List GridEvent :=
  [.dropColumns 0 1, .dropRows 1 0, .setFlag false, .dropColumns 1 0]

/-- The prior width slot at `i` is unusable for reuse: the prior width
array has at most one entry, or the slot is absent, or it stores `0`. -/
def priorUnusable (st : DataGridState ρ) (i : ℕ) : Prop :=
  st.gridTemplateColumns.length ≤ 1 ∨ st.gridTemplateColumns[i]? = none ∨
    st.gridTemplateColumns[i]? = some 0

/-! Theorems. -/

/-- Pointwise view of `initializeCellWidths`. -/
theorem initializeCellWidths_getElem? (st : DataGridState ρ) (i : ℕ) :
    (initializeCellWidths st).gridTemplateColumns[i]? =
      Option.map (initWidth st i) st.columns[i]? := by
  simp [initializeCellWidths, List.getElem?_mapIdx]

/-- Claim C6: the pixel-to-percent conversion returns 0 on a zero grid
width (never a division blow-up), and `(px / gridWidthPx) * 100` on any
nonzero grid width. -/
theorem claim_c6_pixelsToPercent :
    (∀ px : ℚ, pixelsToPercentOfWidth px 0 = 0) ∧
      ∀ px gw : ℚ, gw ≠ 0 → pixelsToPercentOfWidth px gw = px / gw * 100 := by
  constructor
  · intro px
    simp [pixelsToPercentOfWidth]
  · intro px gw hgw
    simp [pixelsToPercentOfWidth, hgw]

/-- Witness for C6 at `px = 5` (zero width) and at spec Scenario B,
`pixelsToPercentOfWidth 200 1000 = 20`. -/
theorem claim_c6_witness :
    pixelsToPercentOfWidth 5 0 = 0 ∧ pixelsToPercentOfWidth 200 1000 = 20 := by
  refine ⟨claim_c6_pixelsToPercent.1 5, ?_⟩
  rw [claim_c6_pixelsToPercent.2 200 1000 (by norm_num)]
  norm_num

/-- Claim C8: a grid-width read without an enclosing grid returns the
neutral default 0 together with one emitted diagnostic; `gridWidthRead` is
a total function, so the read cannot throw. -/
theorem claim_c8_orphanColumnRead :
    gridWidthRead none = (0, ["DataGridColumn must be a child of DataGrid"]) ∧
      (gridWidthRead none).2 ≠ [] := by
  constructor <;> simp [gridWidthRead]

/-- Claim C9: after `handleColumnsChange` runs, the width array has exactly
one slot per column. -/
theorem claim_c9_widthsLength (st : DataGridState ρ) :
    (handleColumnsChange st).gridTemplateColumns.length = st.columns.length := by
  unfold handleColumnsChange
  split
  · simp [initializeCellWidths]
  · omega

/-- Claim C7 evaluated at the failing input: dropping with `fromIndex = 5`
on the two-element backing sequence `[10, 20]` is not rejected; the code
inserts JavaScript `undefined` (`none`) at index 0 and grows the sequence
to length 3. -/
theorem claim_c7_outOfRangeCorrupts :
    reorderOnEnd ([some 10, some 20] : List (Option ℕ)) 5 0 =
      [none, some 10, some 20] := by
  decide


/-- Claim C1 fails as stated: growing a one-column grid (stored width
`[50]`) to two columns does not reuse the prior width at index 0 — the
source only reuses prior widths when the prior array has more than one
entry — so the code yields `[49, 49]` where the claimed rule yields
`[50, 49]`. -/
theorem claim_c1_counterexample :
    (initializeCellWidths c1State).gridTemplateColumns ≠
      (claimedInitializeCellWidths c1State).gridTemplateColumns := by
  intro h
  have h0 := congrArg (fun l => l[0]?) h
  simp only [initializeCellWidths, claimedInitializeCellWidths, List.getElem?_mapIdx] at h0
  norm_num [c1State, initWidth, claimedInitWidth, truthyNum, pixelsToPercentOfWidth] at h0

/-- Claim C1 as amended: a prior width at index `i` is reused only when
the prior width array has more than one entry and the stored value is
nonzero; otherwise a set, nonzero `minWidth` is converted from pixels to
percent of the grid's rendered width; otherwise the slot gets the equal
default share `100/N - 1` (so a `minWidth` of `0` counts as unset, and a
stored prior width of `0` is not reused). -/
theorem claim_c1_amended (st : DataGridState ρ) (i : ℕ) (c : Option Column)
    (hc : st.columns[i]? = some c) :
    (∀ w, 1 < st.gridTemplateColumns.length → st.gridTemplateColumns[i]? = some w → w ≠ 0 →
      (initializeCellWidths st).gridTemplateColumns[i]? = some w) ∧
    (∀ mw, priorUnusable st i → c.bind Column.minWidth = some mw → mw ≠ 0 →
      (initializeCellWidths st).gridTemplateColumns[i]? =
        some (pixelsToPercentOfWidth mw st.rectWidth)) ∧
    (priorUnusable st i → (c.bind Column.minWidth = none ∨ c.bind Column.minWidth = some 0) →
      (initializeCellWidths st).gridTemplateColumns[i]? =
        some (100 / (st.columns.length : ℚ) - 1)) := by
  have key : (initializeCellWidths st).gridTemplateColumns[i]? = some (initWidth st i c) := by
    rw [initializeCellWidths_getElem?, hc, Option.map_some']
  refine ⟨?_, ?_, ?_⟩
  · intro w h1 h2 h3
    rw [key]
    simp [initWidth, h1, h2, truthyNum, h3]
  · intro mw hun hmw hmw0
    rw [key]
    have hex : (if st.gridTemplateColumns.length > 1 then st.gridTemplateColumns[i]? else none)
        = none ∨
        (if st.gridTemplateColumns.length > 1 then st.gridTemplateColumns[i]? else none)
        = some 0 := by
      rcases hun with h | h | h
      · left; rw [if_neg (by omega)]
      · left; split <;> simp [h]
      · by_cases hl : st.gridTemplateColumns.length > 1
        · right; rw [if_pos hl]; exact h
        · left; rw [if_neg hl]
    rcases hex with h | h <;> simp [initWidth, h, truthyNum, hmw, hmw0]
  · intro hun hmw
    rw [key]
    have hex : (if st.gridTemplateColumns.length > 1 then st.gridTemplateColumns[i]? else none)
        = none ∨
        (if st.gridTemplateColumns.length > 1 then st.gridTemplateColumns[i]? else none)
        = some 0 := by
      rcases hun with h | h | h
      · left; rw [if_neg (by omega)]
      · left; split <;> simp [h]
      · by_cases hl : st.gridTemplateColumns.length > 1
        · right; rw [if_pos hl]; exact h
        · left; rw [if_neg hl]
    rcases hex with h | h <;> rcases hmw with h' | h' <;>
      simp [initWidth, h, h', truthyNum]

/-- Witness for the amended C1 at spec Scenario A: a fresh three-column
grid with no `minWidth` initializes every slot to `100/3 - 1`. -/
theorem claim_c1_witness :
    (initializeCellWidths scenarioAState).gridTemplateColumns[0]? = some (100 / 3 - 1) := by
  have h := (claim_c1_amended scenarioAState 0 (some {}) rfl).2.2
    (Or.inl (by simp [scenarioAState])) (Or.inl rfl)
  simpa [scenarioAState] using h

/-- Claim C2 fails as stated: with `minWidth` explicitly `0`, start width
100px, pointer delta −90px and grid width 1000px, the claimed
`minWidth ?? 60` floor gives `max 0 10 = 10px` (1 percent), but the source
computes `minWidth || 60`, so the floor is 60px (6 percent). -/
theorem claim_c2_counterexample :
    resizeNewWidth (some 0) 100 (-90) 1000 ≠ claimedResizeNewWidth (some 0) 100 (-90) 1000 := by
  norm_num [resizeNewWidth, claimedResizeNewWidth, jsOrDefault, truthyNum,
    pixelsToPercentOfWidth, max_def]

/-- Claim C2 as amended: the new width is `max(m, startWidth + delta)`
converted to percent of the grid width, where the floor `m` is the
explicit `minWidth` when it is set and nonzero, else 60 (JavaScript `||`,
not `??`); the result is written into the width slot of the resized
column, and converted back to pixels it never falls below the explicit
`minWidth`, nor below 60px when `minWidth` is unset. -/
theorem claim_c2_amended (mw : Option ℚ) (sw d gw : ℚ) (st : DataGridState ρ) (i : ℕ)
    (hi : i < st.gridTemplateColumns.length) (hgw : 0 < gw) :
    resizeNewWidth mw sw d gw =
      pixelsToPercentOfWidth
        (max (match mw with | some m => if m = 0 then 60 else m | none => 60) (sw + d)) gw ∧
    (handleWidthChange st i (resizeNewWidth mw sw d gw)).gridTemplateColumns[i]? =
      some (resizeNewWidth mw sw d gw) ∧
    resizeNewWidth mw sw d gw * gw / 100 ≥ mw.getD 0 ∧
    (mw = none → resizeNewWidth mw sw d gw * gw / 100 ≥ 60) := by
  have hgw' : gw ≠ 0 := ne_of_gt hgw
  have hpx : resizeNewWidth mw sw d gw * gw / 100 = max (jsOrDefault mw 60) (sw + d) := by
    unfold resizeNewWidth pixelsToPercentOfWidth
    rw [if_neg hgw']
    field_simp
  refine ⟨?_, ?_, ?_, ?_⟩
  · cases mw with
    | none => rfl
    | some m =>
      by_cases hm : m = 0 <;>
        simp [resizeNewWidth, jsOrDefault, truthyNum, hm]
  · simp [handleWidthChange, List.getElem?_set_self hi]
  · rw [hpx]
    refine le_trans ?_ (le_max_left _ _)
    cases mw with
    | none => simp [jsOrDefault, truthyNum]
    | some m =>
      by_cases hm : m = 0 <;> simp [jsOrDefault, truthyNum, hm]
  · intro hnone
    subst hnone
    rw [hpx]
    exact le_trans (by simp [jsOrDefault, truthyNum]) (le_max_left _ _)

/-- Witness for the amended C2 at spec Scenario C: resizing column 0 of
`exState` by +50px from a 100px start in a 1000px grid stores 15 percent,
and the floor properties hold there. -/
theorem claim_c2_witness :
    resizeNewWidth none 100 50 1000 = 15 ∧
    (handleWidthChange exState 0 (resizeNewWidth none 100 50 1000)).gridTemplateColumns[0]? =
      some (resizeNewWidth none 100 50 1000) ∧
    resizeNewWidth none 100 50 1000 * 1000 / 100 ≥ (none : Option ℚ).getD 0 ∧
    ((none : Option ℚ) = none → resizeNewWidth none 100 50 1000 * 1000 / 100 ≥ 60) := by
  have h := claim_c2_amended none 100 50 1000 exState 0 (by simp [exState]) (by norm_num)
  refine ⟨?_, h.2.1, h.2.2.1, h.2.2.2⟩
  norm_num [resizeNewWidth, jsOrDefault, truthyNum, pixelsToPercentOfWidth, max_def]

/-- Claim C10: a column whose `minWidth` is explicitly `0` behaves as if
`minWidth` were unset — width initialization (here from a fresh width
array) assigns the equal default share `100/N - 1`, and the resize floor
is the 60px fallback, exactly as for an unset `minWidth`. -/
theorem claim_c10_zeroMinWidth (st : DataGridState ρ) (i : ℕ) (c : Column)
    (hc : st.columns[i]? = some (some c)) (hmw : c.minWidth = some 0)
    (hprior : st.gridTemplateColumns = []) :
    (initializeCellWidths st).gridTemplateColumns[i]? =
      some (100 / (st.columns.length : ℚ) - 1) ∧
    (∀ sw d gw, resizeNewWidth c.minWidth sw d gw = resizeNewWidth none sw d gw) ∧
    (∀ sw d gw, resizeNewWidth c.minWidth sw d gw =
      pixelsToPercentOfWidth (max 60 (sw + d)) gw) := by
  refine ⟨?_, ?_, ?_⟩
  · rw [initializeCellWidths_getElem?, hc, Option.map_some']
    simp [initWidth, hprior, truthyNum, hmw]
  · intro sw d gw
    simp [resizeNewWidth, jsOrDefault, truthyNum, hmw]
  · intro sw d gw
    simp [resizeNewWidth, jsOrDefault, truthyNum, hmw]

/-- Witness for C10 on the concrete two-column grid `zeroMinState`, whose
first column has `minWidth = 0`: initialization assigns `100/2 - 1 = 49`,
and a resize from 100px by −90px in a 1000px grid floors at 60px for
`minWidth = 0` just as for no `minWidth`. -/
theorem claim_c10_witness :
    (initializeCellWidths zeroMinState).gridTemplateColumns[0]? = some 49 ∧
    resizeNewWidth (some 0) 100 (-90) 1000 = resizeNewWidth none 100 (-90) 1000 := by
  have h := claim_c10_zeroMinWidth zeroMinState 0 { minWidth := some 0 } rfl rfl rfl
  refine ⟨?_, h.2.1 100 (-90) 1000⟩
  have h0 := h.1
  norm_num [zeroMinState] at h0
  convert h0 using 2

/-- In range, the removal half of the splice is `eraseIdx`. -/
theorem jsSpliceDeleteOne_fst_of_lt (l : List α) (f : ℕ) (hf : f < l.length) :
    (jsSpliceDeleteOne l f).1 = l.eraseIdx f := by
  simp [jsSpliceDeleteOne, Nat.min_eq_left hf.le, List.eraseIdx_eq_take_drop_succ]

/-- In range, the splice removes exactly the element at the index. -/
theorem jsSpliceDeleteOne_snd_of_lt (l : List α) (f : ℕ) (hf : f < l.length) :
    (jsSpliceDeleteOne l f).2 = [l[f]] := by
  simp only [jsSpliceDeleteOne, Nat.min_eq_left hf.le]
  rw [List.drop_eq_getElem_cons hf]
  rfl

/-- `insertIdx` at an in-range position is take-cons-drop. -/
theorem insertIdx_eq_take_cons_drop (t : ℕ) (a : α) (l : List α) (ht : t ≤ l.length) :
    l.insertIdx t a = l.take t ++ a :: l.drop t := by
  induction t generalizing l with
  | zero => simp
  | succ n ih =>
    cases l with
    | nil => simp at ht
    | cons x xs =>
      simp only [List.insertIdx_succ_cons, List.take_succ_cons, List.drop_succ_cons,
        List.cons_append, List.cons.injEq, true_and]
      exact ih xs (by simpa using ht)

/-- In range, the insertion splice is `insertIdx`. -/
theorem jsSpliceInsertOne_eq_insertIdx (l : List α) (t : ℕ) (a : α) (ht : t ≤ l.length) :
    jsSpliceInsertOne l t a = l.insertIdx t a := by
  rw [insertIdx_eq_take_cons_drop t a l ht]
  simp [jsSpliceInsertOne, Nat.min_eq_left ht]

/-- With both indices in range, the committed reorder is exactly
remove-at-`fromIdx` followed by insert-at-`toIdx`. -/
theorem reorderOnEnd_eq (l : List (Option α)) (f t : ℕ) (hf : f < l.length)
    (ht : t < l.length) : reorderOnEnd l f t = (l.eraseIdx f).insertIdx t l[f] := by
  show jsSpliceInsertOne (jsSpliceDeleteOne l f).1 t ((jsSpliceDeleteOne l f).2.headD none) = _
  rw [jsSpliceDeleteOne_fst_of_lt l f hf, jsSpliceDeleteOne_snd_of_lt l f hf]
  simp only [List.headD_cons]
  exact jsSpliceInsertOne_eq_insertIdx _ t _
    (by rw [List.length_eraseIdx, if_pos hf]; omega)

/-- An in-range element-cons-erase decomposition, as a permutation. -/
theorem perm_getElem_cons_eraseIdx (l : List α) (f : ℕ) (hf : f < l.length) :
    l.Perm (l[f] :: l.eraseIdx f) := by
  conv_lhs => rw [← List.take_append_drop f l, List.drop_eq_getElem_cons hf]
  rw [List.eraseIdx_eq_take_drop_succ]
  exact List.perm_middle

/-- With both indices in range, the committed reorder permutes the backing
sequence. -/
theorem reorderOnEnd_perm (l : List (Option α)) (f t : ℕ) (hf : f < l.length)
    (ht : t < l.length) : (reorderOnEnd l f t).Perm l := by
  rw [reorderOnEnd_eq l f t hf ht]
  have h1 : ((l.eraseIdx f).insertIdx t l[f]).Perm (l[f] :: l.eraseIdx f) :=
    List.perm_insertIdx _ _ (by rw [List.length_eraseIdx, if_pos hf]; omega)
  exact h1.trans (perm_getElem_cons_eraseIdx l f hf).symm

/-- `eraseIdx` commutes with `map some`. -/
theorem eraseIdx_map_some (l : List α) (f : ℕ) :
    (l.map some).eraseIdx f = (l.eraseIdx f).map some := by
  rw [List.eraseIdx_eq_take_drop_succ, List.eraseIdx_eq_take_drop_succ, List.map_append,
    List.map_take, List.map_drop]

/-- `insertIdx` commutes with `map some` at an in-range position. -/
theorem insertIdx_map_some (m : List α) (t : ℕ) (a : α) (ht : t ≤ m.length) :
    (m.map some).insertIdx t (some a) = (m.insertIdx t a).map some := by
  rw [insertIdx_eq_take_cons_drop t a m ht,
    insertIdx_eq_take_cons_drop t (some a) (m.map some) (by simpa using ht)]
  simp [List.map_take, List.map_drop]

/-- Claim C3: a reorder drop with in-range indices on a backing sequence
commits a single remove-at-`fromIdx` plus insert-at-`toIdx` (not a swap). -/
theorem claim_c3_removeInsert (l : List α) (f t : ℕ) (hf : f < l.length)
    (ht : t < l.length) :
    reorderOnEnd (l.map some) f t = ((l.eraseIdx f).insertIdx t l[f]).map some := by
  rw [reorderOnEnd_eq (l.map some) f t (by simpa using hf) (by simpa using ht),
    eraseIdx_map_some]
  simp only [List.getElem_map]
  exact insertIdx_map_some _ _ _ (by rw [List.length_eraseIdx, if_pos hf]; omega)

/-- Witness for C3 at spec Scenario D: moving index 2 to index 0 in the
four-column sequence `[A, B, C, D]` yields `[C, A, B, D]`. -/
theorem claim_c3_witness :
    reorderOnEnd (["A", "B", "C", "D"].map some) 2 0 = ["C", "A", "B", "D"].map some := by
  rw [claim_c3_removeInsert ["A", "B", "C", "D"] 2 0 (by decide) (by decide)]
  rfl

/-- Claim C4: a reorder drop on either axis (with the gesture layer's
in-range indices) permutes the backing sequence — same multiset of
entries, same length — and leaves the width array and the other axis
untouched. -/
theorem claim_c4_permutation (st : DataGridState ρ) :
    (∀ f t, f < st.columns.length → t < st.columns.length →
      ((step st (.dropColumns f t)).columns.Perm st.columns ∧
        (step st (.dropColumns f t)).columns.length = st.columns.length ∧
        (step st (.dropColumns f t)).gridTemplateColumns = st.gridTemplateColumns ∧
        (step st (.dropColumns f t)).rows = st.rows)) ∧
    (∀ f t, f < st.rows.length → t < st.rows.length →
      ((step st (.dropRows f t)).rows.Perm st.rows ∧
        (step st (.dropRows f t)).rows.length = st.rows.length ∧
        (step st (.dropRows f t)).gridTemplateColumns = st.gridTemplateColumns ∧
        (step st (.dropRows f t)).columns = st.columns)) := by
  constructor
  · intro f t hf ht
    by_cases h : st.sortableColumns
    · have hs : step st (.dropColumns f t) = columnsOnEnd st f t := by simp [step, h]
      rw [hs]
      have hp := reorderOnEnd_perm st.columns f t hf ht
      exact ⟨hp, hp.length_eq, rfl, rfl⟩
    · have hs : step st (.dropColumns f t) = st := by simp [step, h]
      rw [hs]
      exact ⟨List.Perm.refl _, rfl, rfl, rfl⟩
  · intro f t hf ht
    by_cases h : st.sortableRows
    · have hs : step st (.dropRows f t) = rowsOnEnd st f t := by simp [step, h]
      rw [hs]
      have hp := reorderOnEnd_perm st.rows f t hf ht
      exact ⟨hp, hp.length_eq, rfl, rfl⟩
    · have hs : step st (.dropRows f t) = st := by simp [step, h]
      rw [hs]
      exact ⟨List.Perm.refl _, rfl, rfl, rfl⟩

/-- Witness for C4 on the concrete grid `exState`: one column drop and one
row drop, both permutations. -/
theorem claim_c4_witness :
    (step exState (.dropColumns 0 1)).columns.Perm exState.columns ∧
      (step exState (.dropRows 1 0)).rows.Perm exState.rows :=
  ⟨((claim_c4_permutation exState).1 0 1 (by simp [exState]) (by simp [exState])).1,
    ((claim_c4_permutation exState).2 1 0 (by simp [exState]) (by simp [exState])).1⟩

/-- A destroyed-coordinator grid with reordering off absorbs every event
other than a re-enable. -/
theorem step_inert (st : DataGridState ρ) (e : GridEvent) (hrf : st.reorderable = false)
    (hc : st.sortableColumns = false) (hr : st.sortableRows = false)
    (he : e ≠ .setFlag true) : step st e = st := by
  cases e with
  | setFlag b =>
    cases b with
    | true => exact absurd rfl he
    | false =>
      cases st
      simp_all [step, setReorderable, handleSortableColumnChange]
  | dropColumns f t => simp [step, hc]
  | dropRows f t => simp [step, hr]

/-- A destroyed-coordinator grid with reordering off is unchanged by any
event trace that never re-enables reordering. -/
theorem run_inert (st : DataGridState ρ) (evs : List GridEvent) (hrf : st.reorderable = false)
    (hc : st.sortableColumns = false) (hr : st.sortableRows = false)
    (hevs : ∀ e ∈ evs, e ≠ .setFlag true) : run st evs = st := by
  induction evs with
  | nil => rfl
  | cons e es ih =>
    have h1 : run st (e :: es) = run (step st e) es := rfl
    rw [h1, step_inert st e hrf hc hr (hevs e (by simp))]
    exact ih fun e' he' => hevs e' (List.mem_cons_of_mem _ he')

/-- Claim C5: turning `reorderable` off on a grid where it was on destroys
both coordinators, and from then on no drag drop (on either axis) changes
`columns` or `rows` for as long as reordering is not re-enabled. -/
theorem claim_c5_disableReorder (st : DataGridState ρ) (_hst : st.reorderable = true)
    (evs : List GridEvent) (hevs : ∀ e ∈ evs, e ≠ .setFlag true) :
    (step st (.setFlag false)).sortableColumns = false ∧
    (step st (.setFlag false)).sortableRows = false ∧
    run (step st (.setFlag false)) evs = step st (.setFlag false) ∧
    (run (step st (.setFlag false)) evs).columns = st.columns ∧
    (run (step st (.setFlag false)) evs).rows = st.rows := by
  have h1 : step st (.setFlag false) =
      { st with reorderable := false, sortableColumns := false, sortableRows := false } := by
    simp [step, setReorderable, handleSortableColumnChange]
  rw [h1]
  rw [run_inert _ evs rfl rfl rfl hevs]
  exact ⟨rfl, rfl, rfl, rfl, rfl⟩

/-- Witness for C5 on the concrete grid `exState` and the trace
`exEvents` (two drops and a redundant disable, never a re-enable). -/
theorem claim_c5_witness :
    (step exState (.setFlag false)).sortableColumns = false ∧
    (step exState (.setFlag false)).sortableRows = false ∧
    run (step exState (.setFlag false)) exEvents = step exState (.setFlag false) ∧
    (run (step exState (.setFlag false)) exEvents).columns = exState.columns ∧
    (run (step exState (.setFlag false)) exEvents).rows = exState.rows :=
  claim_c5_disableReorder exState rfl exEvents (by decide)

end LitDataGrid
